import Mathlib

/-!
Verification of the MCP weather server (`mcp_weather_server.py`).

The Python source is shallowly embedded: every upstream HTTP interaction is
mediated by an explicit environment (`Env`) mapping each request that the code
can issue to a response; JSON payloads are typed records whose optional fields
mirror the `dict.get` accesses of the source, and a `body = none` response
models a payload on which the source's field extraction raises (the exception
is caught by the enclosing `try` and turns into a `None` result).  Every
function additionally returns the list of upstream calls it issued, so that
"no call was made" properties are expressible.  Machine floats of the source
are modelled as rationals.
-/

/-- Zero-pads a natural number to two digits, as Python `%H`/`%M`/`%d` do. -/
def pad2 (n : Nat) : String :=
  if n < 10 then "0" ++ toString n else toString n

/-- Models Python string interpolation of a JSON number.  Integral values
print without a decimal point; the digit-level rendering of non-integral
values is abstracted (no theorem depends on it). -/
def pyStr (q : ℚ) : String :=
  if q.den = 1 then toString q.num else toString q

/-- Models Python `format(q, '.[d]f')`: fixed-point rendering with `d`
decimal places.  The digit-level rounding mode is abstracted (no theorem
depends on it). -/
def pyFmtDec (d : Nat) (q : ℚ) : String :=
  let m : ℤ := round (q * (10 : ℚ) ^ d)
  let sign := if m < 0 then "-" else ""
  let a := m.natAbs
  sign ++ toString (a / 10 ^ d) ++ "." ++
    (String.mk (List.replicate (d - (toString (a % 10 ^ d)).length) '0') ++
      toString (a % 10 ^ d))

/-- Python one-decimal fixed-point formatting of a float. -/
def pyFmt1 (q : ℚ) : String := pyFmtDec 1 q

/-- Python two-decimal fixed-point formatting of a float. -/
def pyFmt2 (q : ℚ) : String := pyFmtDec 2 q

/-- Python `int(x)` on a float: truncation toward zero. -/
def pyTrunc (q : ℚ) : ℤ := q.num.tdiv (q.den : ℤ)

/-- Models Python `str.title()`: an alphabetic character is uppercased when
the previous character is not alphabetic and lowercased otherwise. -/
def pyTitleGo : List Char → Bool → List Char
  | [], _ => []
  | c :: cs, prevAlpha =>
    if c.isAlpha then
      (if prevAlpha then c.toLower else c.toUpper) :: pyTitleGo cs true
    else
      c :: pyTitleGo cs false

/-- Python `s.title()`. -/
def pyTitle (s : String) : String :=
  String.mk (pyTitleGo s.toList false)

/-- Python `s[a:b]` (nonnegative bounds). -/
def pySlice (s : String) (a b : Nat) : String :=
  String.mk ((s.toList.drop a).take (b - a))

/-- Python truthiness of `arguments.get(key)` for a string-valued key:
false for a missing key and for the empty string. -/
def truthy : Option String → Bool
  | none => false
  | some s => decide (s ≠ "")

/-- Gregorian leap-year rule, as used by `datetime`. -/
def isLeapYear (y : Nat) : Bool :=
  (y % 4 = 0 && y % 100 ≠ 0) || y % 400 = 0

/-- Number of days of month `m` of year `y`. -/
def daysInMonth (y m : Nat) : Nat :=
  if m = 2 then (if isLeapYear y then 29 else 28)
  else if m = 4 ∨ m = 6 ∨ m = 9 ∨ m = 11 then 30
  else 31

/-- Zeller's congruence: day of week of a Gregorian date, 0 = Saturday. -/
def zeller (y m d : Nat) : Nat :=
  let y' := if m < 3 then y - 1 else y
  let m' := if m < 3 then m + 12 else m
  (d + 13 * (m' + 1) / 5 + y' % 100 + y' % 100 / 4 + y' / 100 / 4 + 5 * (y' / 100)) % 7

/-- Weekday abbreviation for a Zeller index, matching `strftime('%a')`. -/
def weekdayAbbrev : Nat → String
  | 0 => "Sat" | 1 => "Sun" | 2 => "Mon" | 3 => "Tue"
  | 4 => "Wed" | 5 => "Thu" | 6 => "Fri" | _ => ""

/-- Month abbreviation, matching `strftime('%b')`. -/
def monthAbbrev : Nat → String
  | 1 => "Jan" | 2 => "Feb" | 3 => "Mar" | 4 => "Apr"
  | 5 => "May" | 6 => "Jun" | 7 => "Jul" | 8 => "Aug"
  | 9 => "Sep" | 10 => "Oct" | 11 => "Nov" | 12 => "Dec" | _ => ""

/-- Splits a character list at every dash, as Python `str.split('-')`. -/
def splitOnDash : List Char → List (List Char)
  | [] => [[]]
  | c :: rest =>
    if c = '-' then [] :: splitOnDash rest
    else
      match splitOnDash rest with
      | [] => [[c]]
      | h :: t => (c :: h) :: t

/-- The numeric value of a nonempty all-digit character list, `none`
otherwise. -/
def digitsVal? (cs : List Char) : Option Nat :=
  if cs = [] then none
  else cs.foldl
    (fun acc c =>
      match acc with
      | none => none
      | some n => if c.isDigit then some (n * 10 + (c.toNat - 48)) else none)
    (some 0)

/-- Models `datetime.strptime(s, '%Y-%m-%d').strftime('%a, %b %d')` from
`get_forecast_data`: `none` models the `ValueError` that `strptime` raises on
a malformed date (which the enclosing `try` turns into an overall `None`). -/
def formatDate (s : String) : Option String :=
  match splitOnDash s.toList with
  | [ys, ms, ds] =>
    match digitsVal? ys, digitsVal? ms, digitsVal? ds with
    | some y, some m, some d =>
      if ys.length = 4 ∧ 1 ≤ m ∧ m ≤ 12 ∧ 1 ≤ d ∧ d ≤ daysInMonth y m then
        some (weekdayAbbrev (zeller y m d) ++ ", " ++ monthAbbrev m ++ " " ++ pad2 d)
      else none
    | _, _, _ => none
  | _ => none

/-- Models `datetime.fromtimestamp(ts).strftime('%H:%M') if ts else '--:--'`
for the sunrise/sunset fields (local time rendered as UTC; the timezone
offset is not observable by any theorem). -/
def fmtUnixHM (ts : Option Nat) : String :=
  let t := ts.getD 0
  if t = 0 then "--:--" else pad2 (t / 3600 % 24) ++ ":" ++ pad2 (t / 60 % 60)

/-- One element of the geocoding response array.  `lat`/`lon` are optional
because `search_cities` reads them with `location.get('lat', 0)` while
`get_coordinates_for_city` reads `location['lat']` (raising when absent);
`name` is read only with mandatory indexing and is kept required. -/
structure GeoLocation where
  lat : Option ℚ
  lon : Option ℚ
  name : String
  country : Option String
  state : Option String
deriving Repr, DecidableEq

/-- The record built by `get_coordinates_for_city` on success. -/
structure Coordinates where
  lat : ℚ
  lon : ℚ
  name : String
  country : String
deriving Repr, DecidableEq

/-- The record built by `get_air_quality_data` on success. -/
structure AirQuality where
  aqi : ℤ
  aqi_label : String
  aqi_color : String
deriving Repr, DecidableEq

/-- The fields of a current-weather JSON payload that `get_weather_data`
reads.  Optional fields mirror the `dict.get` accesses with defaults; the
remaining fields are read with mandatory indexing (a payload on which such
an access raises is modelled as a response with `body = none`). -/
structure WeatherPayload where
  temp : ℚ
  feels_like : ℚ
  description : String
  humidity : ℚ
  windSpeed : Option ℚ
  windDeg : Option ℚ
  cloudsAll : Option ℚ
  visibility : Option ℚ
  pressure : Option ℚ
  sunrise : Option Nat
  sunset : Option Nat
  name : String
  country : String
  coordLat : ℚ
  coordLon : ℚ
deriving Repr, DecidableEq

/-- The dictionary assembled by `get_weather_data`; the three air-quality
keys are merged only when the air-quality lookup succeeded (`air`). -/
structure WeatherReport where
  temperature : ℚ
  temp_unit : String
  feels_like : ℚ
  condition : String
  humidity : ℚ
  wind_speed : ℚ
  wind_unit : String
  wind_direction : ℚ
  clouds : ℚ
  visibility : ℚ
  pressure : ℚ
  sunrise : String
  sunset : String
  city : String
  country : String
  lat : ℚ
  lon : ℚ
  air : Option AirQuality
deriving Repr, DecidableEq

/-- One 3-hour sample of the forecast response list (the fields that
`get_forecast_data` reads). -/
structure ForecastItem where
  dt_txt : String
  temp : ℚ
  description : String
  humidity : ℚ
  windSpeed : Option ℚ
deriving Repr, DecidableEq

/-- One element of `daily_forecasts` as assembled by `get_forecast_data`. -/
structure ForecastEntry where
  date : String
  temperature : ℚ
  temp_unit : String
  condition : String
  humidity : ℚ
  wind_speed : ℚ
deriving Repr, DecidableEq

/-- The dictionary returned by `get_forecast_data` on success. -/
structure ForecastResult where
  city : String
  country : String
  forecasts : List ForecastEntry
deriving Repr, DecidableEq

/-- An HTTP response: status code plus a typed rendering of the JSON body.
`body = none` models a body on which `response.json()` or the subsequent
mandatory field extraction raises. -/
structure HttpResp (α : Type) where
  status : Nat
  body : Option α
deriving Repr, DecidableEq

/-- One upstream HTTP GET, identified by endpoint and query parameters,
in the order the source builds them. -/
inductive ApiCall where
  | weatherByCity (city units : String)
  | weatherByCoord (lat lon : ℚ) (units : String)
  | geocoding (q : String) (limit : Nat)
  | airPollution (lat lon : ℚ)
  | forecast (lat lon : ℚ) (units : String)
deriving Repr, DecidableEq

/-- The upstream world: one response for every request the source can
issue.  Network-level exceptions are modelled as non-200 statuses (both are
indistinguishable to the source, which collapses them to `None`). -/
structure Env where
  weatherByCity : String → String → HttpResp WeatherPayload
  weatherByCoord : ℚ → ℚ → String → HttpResp WeatherPayload
  geocoding : String → Nat → HttpResp (List GeoLocation)
  airPollution : ℚ → ℚ → HttpResp ℤ
  forecastByCoord : ℚ → ℚ → String → HttpResp (List ForecastItem)

/-- The `arguments` dictionary of a tool call (the keys the source reads). -/
structure Args where
  city : Option String
  units : Option String
  query : Option String
  limit : Option Nat
deriving Repr, DecidableEq

/-- A `TextContent(type="text", text=...)` response item. -/
structure TextContent where
  text : String
deriving Repr, DecidableEq

/-- Builds a `TextContent`. -/
def mkText (t : String) : TextContent := { text := t }

/-- Embeds `get_coordinates_for_city`: one geocoding query with `limit=1`;
`some` when the status is 200, the array is nonempty and the first element
has `lat`/`lon` (a missing one raises a `KeyError` that the `except` clause
turns into `None`).  Also returns the upstream calls issued. -/
def get_coordinates_for_city (env : Env) (city : String) :
    Option Coordinates × List ApiCall :=
  let resp := env.geocoding city 1
  let calls := [ApiCall.geocoding city 1]
  if resp.status = 200 then
    match resp.body with
    | some (loc :: _) =>
      match loc.lat, loc.lon with
      | some la, some lo =>
        (some { lat := la, lon := lo, name := loc.name, country := loc.country.getD "" }, calls)
      | _, _ => (none, calls)
    | _ => (none, calls)
  else (none, calls)

/-- The `aqi_labels` table of `get_air_quality_data` with its `.get`
default `"Unknown"`. -/
def aqiLabel (a : ℤ) : String :=
  if a = 1 then "Good" else if a = 2 then "Fair" else if a = 3 then "Moderate"
  else if a = 4 then "Poor" else if a = 5 then "Very Poor" else "Unknown"

/-- The `aqi_colors` table of `get_air_quality_data` with its `.get`
default `"⚪"`. -/
def aqiColor (a : ℤ) : String :=
  if a = 1 then "🟢" else if a = 2 then "🟡" else if a = 3 then "🟠"
  else if a = 4 then "🔴" else if a = 5 then "🟣" else "⚪"

/-- Embeds `get_air_quality_data`: one air-pollution query; on status 200
the AQI integer at `data['list'][0]['main']['aqi']` is mapped through the
two tables (a malformed body is `body = none` and yields `None`). -/
def get_air_quality_data (env : Env) (lat lon : ℚ) :
    Option AirQuality × List ApiCall :=
  let resp := env.airPollution lat lon
  let calls := [ApiCall.airPollution lat lon]
  if resp.status = 200 then
    match resp.body with
    | some aqi => (some { aqi := aqi, aqi_label := aqiLabel aqi, aqi_color := aqiColor aqi }, calls)
    | none => (none, calls)
  else (none, calls)

/-- The result-dictionary construction shared verbatim by the two success
branches of `get_weather_data` (source lines 110-156 and 173-214); the
branches differ only in the provenance of the city name, country and
coordinates, which are passed in. -/
def buildWeatherReport (units : String) (data : WeatherPayload)
    (cityName country : String) (lat lon : ℚ) (air : Option AirQuality) :
    WeatherReport :=
  { temperature := data.temp,
    temp_unit := if units = "imperial" then "°F" else "°C",
    feels_like := data.feels_like,
    condition := data.description,
    humidity := data.humidity,
    wind_speed :=
      if units = "imperial" then data.windSpeed.getD 0 * (2237 / 1000 : ℚ)
      else data.windSpeed.getD 0,
    wind_unit := if units = "imperial" then "mph" else "m/s",
    wind_direction := data.windDeg.getD 0,
    clouds := data.cloudsAll.getD 0,
    visibility := data.visibility.getD 0 / 1000,
    pressure := data.pressure.getD 0,
    sunrise := fmtUnixHM data.sunrise,
    sunset := fmtUnixHM data.sunset,
    city := cityName,
    country := country,
    lat := lat,
    lon := lon,
    air := air }

/-- Embeds `get_weather_data`: direct name-based query; on non-200, a
geocoding fallback followed by a coordinate-based query; on a success
payload, an air-quality lookup whose failure merely omits the AQI fields. -/
def get_weather_data (env : Env) (city units : String) :
    Option WeatherReport × List ApiCall :=
  let resp := env.weatherByCity city units
  if resp.status = 200 then
    match resp.body with
    | some data =>
      let aq := get_air_quality_data env data.coordLat data.coordLon
      (some (buildWeatherReport units data data.name data.country data.coordLat data.coordLon aq.1),
       ApiCall.weatherByCity city units :: aq.2)
    | none => (none, [ApiCall.weatherByCity city units])
  else
    match get_coordinates_for_city env city with
    | (some coords, gcalls) =>
      let resp2 := env.weatherByCoord coords.lat coords.lon units
      let base := ApiCall.weatherByCity city units :: gcalls ++
        [ApiCall.weatherByCoord coords.lat coords.lon units]
      if resp2.status = 200 then
        match resp2.body with
        | some data =>
          let aq := get_air_quality_data env coords.lat coords.lon
          (some (buildWeatherReport units data coords.name coords.country coords.lat coords.lon aq.1),
           base ++ aq.2)
        | none => (none, base)
      else (none, base)
    | (none, gcalls) => (none, ApiCall.weatherByCity city units :: gcalls)

/-- `item['dt_txt'][:10]` — the calendar date of a 3-hour sample. -/
def itemDate (it : ForecastItem) : String := pySlice it.dt_txt 0 10

/-- `item['dt_txt'][11:13]` — the local hour (two characters) of a sample. -/
def itemHour (it : ForecastItem) : String := pySlice it.dt_txt 11 13

/-- The dictionary appended to `daily_forecasts` for an accepted sample,
given the already-formatted date label `fd`. -/
def mkEntryWith (temp_unit : String) (it : ForecastItem) (fd : String) :
    ForecastEntry :=
  { date := fd, temperature := it.temp, temp_unit := temp_unit,
    condition := it.description, humidity := it.humidity,
    wind_speed := it.windSpeed.getD 0 }

/-- The entry produced from an accepted sample (date label recomputed from
the sample itself). -/
def mkForecastEntry (temp_unit : String) (it : ForecastItem) : ForecastEntry :=
  mkEntryWith temp_unit it ((formatDate (itemDate it)).getD "")

/-- Embeds the selection loop of `get_forecast_data` (source lines 244-264):
iterate over the samples in upstream order, accept a sample when its date is
unseen and its hour is `'12'` or `'15'`, stop after the fifth acceptance.
`none` models the `ValueError` of `strptime` on a malformed accepted date
(turned into an overall `None` by the enclosing `try`). -/
def selectGo (temp_unit : String) :
    List ForecastItem → List String → List ForecastEntry →
    Option (List ForecastEntry)
  | [], _, acc => some acc
  | it :: rest, seen, acc =>
    if itemDate it ∉ seen ∧ (itemHour it = "12" ∨ itemHour it = "15") then
      match formatDate (itemDate it) with
      | none => none
      | some fd =>
        if 5 ≤ (acc ++ [mkEntryWith temp_unit it fd]).length then
          some (acc ++ [mkEntryWith temp_unit it fd])
        else
          selectGo temp_unit rest (seen ++ [itemDate it]) (acc ++ [mkEntryWith temp_unit it fd])
    else selectGo temp_unit rest seen acc

/-- The selection loop started on empty `seen_dates` and `daily_forecasts`. -/
def selectForecasts (temp_unit : String) (items : List ForecastItem) :
    Option (List ForecastEntry) :=
  selectGo temp_unit items [] []

/-- The raw samples the selection loop accepts, with `k` the number of
entries accepted so far — the same traversal as `selectGo`, recording the
accepted samples themselves instead of the entries built from them. -/
def pickRaw : List ForecastItem → List String → Nat → List ForecastItem
  | [], _, _ => []
  | it :: rest, seen, k =>
    if itemDate it ∉ seen ∧ (itemHour it = "12" ∨ itemHour it = "15") then
      if 5 ≤ k + 1 then [it]
      else it :: pickRaw rest (seen ++ [itemDate it]) (k + 1)
    else pickRaw rest seen k

/-- A sample's hour is one of the two accepted local hours. -/
def hourOK (it : ForecastItem) : Bool :=
  itemHour it = "12" || itemHour it = "15"

/-- The wind speed the source copies from a raw sample
(`item.get('wind', {}).get('speed', 0)`). -/
def rawWind (it : ForecastItem) : ℚ := it.windSpeed.getD 0

/-- True when an upstream call is not a forecast-endpoint call. -/
def notForecastCall : ApiCall → Bool
  | ApiCall.forecast _ _ _ => false
  | _ => true

/-- Embeds `get_forecast_data`: geocoding resolution (failure is final),
then one forecast query by coordinates, then the selection loop. -/
def get_forecast_data (env : Env) (city units : String) :
    Option ForecastResult × List ApiCall :=
  match get_coordinates_for_city env city with
  | (none, gcalls) => (none, gcalls)
  | (some coords, gcalls) =>
    let resp := env.forecastByCoord coords.lat coords.lon units
    let calls := gcalls ++ [ApiCall.forecast coords.lat coords.lon units]
    if resp.status = 200 then
      match resp.body with
      | some items =>
        match selectForecasts (if units = "imperial" then "°F" else "°C") items with
        | some entries =>
          (some { city := coords.name, country := coords.country, forecasts := entries }, calls)
        | none => (none, calls)
      | none => (none, calls)
    else (none, calls)

/-- The multi-line text of a successful `get_weather` tool response
(source lines 412-429). -/
def renderWeatherText (w : WeatherReport) : String :=
  let base :=
    "🌤️ Weather for " ++ w.city ++ ", " ++ w.country ++
    "\n\n🌡️ Temperature: " ++ toString (pyTrunc w.temperature) ++ w.temp_unit ++
    " (feels like " ++ toString (pyTrunc w.feels_like) ++ w.temp_unit ++ ")" ++
    "\n☁️ Conditions: " ++ pyTitle w.condition ++
    "\n💧 Humidity: " ++ pyStr w.humidity ++ "%" ++
    "\n💨 Wind: " ++ pyFmt1 w.wind_speed ++ " " ++ w.wind_unit ++
    " (" ++ pyStr w.wind_direction ++ "°)" ++
    "\n☁️ Clouds: " ++ pyStr w.clouds ++ "%" ++
    "\n👁️ Visibility: " ++ pyFmt1 w.visibility ++ " km" ++
    "\n🔽 Pressure: " ++ pyStr w.pressure ++ " hPa" ++
    "\n🌅 Sunrise: " ++ w.sunrise ++
    "\n🌇 Sunset: " ++ w.sunset
  match w.air with
  | some a =>
    base ++ "\n🍃 Air Quality: " ++ a.aqi_color ++ " " ++ a.aqi_label ++
      " (AQI: " ++ toString a.aqi ++ ")"
  | none => base

/-- The part of a rendered forecast entry before the literal wind-unit
label (source lines 447-450). -/
def forecastEntryPre (f : ForecastEntry) : String :=
  "📆 " ++ f.date ++ "\n" ++
  "   🌡️ " ++ toString (pyTrunc f.temperature) ++ f.temp_unit ++ " - " ++
  pyTitle f.condition ++ "\n" ++
  "   💧 " ++ pyStr f.humidity ++ "% humidity, 💨 " ++ pyFmt1 f.wind_speed

/-- The three lines appended to the forecast response for one entry. -/
def renderForecastEntryText (f : ForecastEntry) : String :=
  forecastEntryPre f ++ " m/s wind\n\n"

/-- Appends the fixed wind-unit tail of a rendered forecast entry: the
label `m/s` is a string literal of the source, chosen independently of the
requested unit system. -/
def appendMsWind (s : String) : String :=
  s ++ " m/s wind\n\n"

/-- The full text of a successful `get_forecast` tool response
(source lines 444-450). -/
def renderForecastText (fd : ForecastResult) : String :=
  "📅 5-Day Forecast for " ++ fd.city ++ ", " ++ fd.country ++ "\n\n" ++
  String.join (fd.forecasts.map renderForecastEntryText)

/-- The display name of a geocoding hit in `search_cities`
(source lines 483-487). -/
def displayNameOf (loc : GeoLocation) : String :=
  let state := loc.state.getD ""
  let country := loc.country.getD ""
  if state ≠ "" ∧ country ≠ "" then loc.name ++ ", " ++ state ++ ", " ++ country
  else if country ≠ "" then loc.name ++ ", " ++ country
  else loc.name

/-- The two lines rendered for the `idx`-th geocoding hit
(source lines 489-490). -/
def searchCityEntry (idx : Nat) (loc : GeoLocation) : String :=
  toString idx ++ ". " ++ displayNameOf loc ++ "\n" ++
  "   📍 Coordinates: " ++ pyFmt2 (loc.lat.getD 0) ++ ", " ++ pyFmt2 (loc.lon.getD 0) ++
  "\n\n"

/-- Maps `searchCityEntry` over `enumerate(data, 1)`. -/
def searchCityEntryAt (p : Nat × GeoLocation) : String :=
  searchCityEntry (p.1 + 1) p.2

/-- The rendered blocks of the `search_cities` loop, one per element of the
upstream response array (source lines 476-490). -/
def searchCityEntries (data : List GeoLocation) : List String :=
  data.enum.map searchCityEntryAt

/-- The full text of a successful nonempty `search_cities` response. -/
def searchCitiesText (query : String) (data : List GeoLocation) : String :=
  "🔍 Found " ++ toString data.length ++ " cities matching \x27" ++ query ++
  "\x27:\n\n" ++ String.join (searchCityEntries data)

/-- Models the `str(e)` text of the generic catch of the search branch; no
theorem constrains its value. -/
def jsonParseErrorMsg : String := "Expecting value"

/-- Embeds `handle_call_tool`: dispatch on the tool name, required-argument
truthiness checks, assembler invocation and rendering.  Returns the response
items together with every upstream call issued. -/
def handle_call_tool (env : Env) (name : String) (args : Args) :
    List TextContent × List ApiCall :=
  if name = "get_weather" then
    if truthy args.city = false then
      ([mkText "Error: City name is required"], [])
    else
      let city := args.city.getD ""
      let units := args.units.getD "metric"
      match get_weather_data env city units with
      | (some w, calls) => ([mkText (renderWeatherText w)], calls)
      | (none, calls) =>
        ([mkText ("❌ Could not find weather data for \x27" ++ city ++
          "\x27. Please check the city name and try again.")], calls)
  else if name = "get_forecast" then
    if truthy args.city = false then
      ([mkText "Error: City name is required"], [])
    else
      let city := args.city.getD ""
      let units := args.units.getD "metric"
      match get_forecast_data env city units with
      | (some fd, calls) => ([mkText (renderForecastText fd)], calls)
      | (none, calls) =>
        ([mkText ("❌ Could not find forecast data for \x27" ++ city ++
          "\x27. Please check the city name and try again.")], calls)
  else if name = "search_cities" then
    if truthy args.query = false then
      ([mkText "Error: Search query is required"], [])
    else
      let q := args.query.getD ""
      let limit := args.limit.getD 5
      let resp := env.geocoding q limit
      let calls := [ApiCall.geocoding q limit]
      if resp.status = 200 then
        match resp.body with
        | some data =>
          if data.isEmpty then
            ([mkText ("🔍 No cities found matching \x27" ++ q ++
              "\x27. Try a different search term.")], calls)
          else ([mkText (searchCitiesText q data)], calls)
        | none => ([mkText ("❌ Search error: " ++ jsonParseErrorMsg)], calls)
      else ([mkText "❌ Error searching for cities. Please try again."], calls)
  else ([mkText ("❌ Unknown tool: " ++ name)], [])

/-- Quotes a string as a JSON string (escaping abstracted; no theorem
depends on the quoting). -/
def jsonString (s : String) : String := "\"" ++ s ++ "\""

/-- Renders one JSON object field. -/
def jsonField (p : String × String) : String := jsonString p.1 ++ ": " ++ p.2

/-- Models `json.dumps` of a dictionary (insertion order; indentation
abstracted; no theorem depends on the rendering). -/
def jsonObj (fields : List (String × String)) : String :=
  "\x7b" ++ String.intercalate ", " (fields.map jsonField) ++ "\x7d"

/-- Renders a JSON array of strings. -/
def jsonStrArray (xs : List String) : String :=
  "[" ++ String.intercalate ", " (xs.map jsonString) ++ "]"

/-- The `POPULAR_CITIES` constant. -/
def POPULAR_CITIES : List String :=
  ["New York", "London", "Tokyo", "Paris", "Sydney", "Los Angeles", "Berlin"]

/-- The static payload of the `weather://search` resource. -/
def searchResourceJson : String :=
  jsonObj
    [("description", jsonString "Use the get_weather or get_forecast tools to search for weather data"),
     ("available_tools", jsonStrArray ["get_weather", "get_forecast", "search_cities"]),
     ("popular_cities", jsonStrArray POPULAR_CITIES)]

/-- The optional air-quality fields of the serialized weather report. -/
def weatherJsonAirFields : Option AirQuality → List (String × String)
  | some a =>
    [("aqi", toString a.aqi), ("aqi_label", jsonString a.aqi_label),
     ("aqi_color", jsonString a.aqi_color)]
  | none => []

/-- Models `json.dumps(weather_data, indent=2)`. -/
def weatherJsonOf (w : WeatherReport) : String :=
  jsonObj
    ([("temperature", pyStr w.temperature), ("temp_unit", jsonString w.temp_unit),
      ("feels_like", pyStr w.feels_like), ("condition", jsonString w.condition),
      ("humidity", pyStr w.humidity), ("wind_speed", pyStr w.wind_speed),
      ("wind_unit", jsonString w.wind_unit), ("wind_direction", pyStr w.wind_direction),
      ("clouds", pyStr w.clouds), ("visibility", pyStr w.visibility),
      ("pressure", pyStr w.pressure), ("sunrise", jsonString w.sunrise),
      ("sunset", jsonString w.sunset), ("city", jsonString w.city),
      ("country", jsonString w.country),
      ("coordinates", jsonObj [("lat", pyStr w.lat), ("lon", pyStr w.lon)])] ++
     weatherJsonAirFields w.air)

/-- Models Python `s.startswith(t)`. -/
def pyStartsWith (s t : String) : Bool :=
  t.toList.isPrefixOf s.toList

/-- Embeds `handle_read_resource`: a `weather://` identifier is served (the
`search` slug statically, any other slug through `get_weather_data` with
default units), and any other identifier raises `ValueError` — modelled as
`Except.error`, the raised fault. -/
def handle_read_resource (env : Env) (uri : String) : Except String String :=
  if pyStartsWith uri "weather://" then
    let city_slug := uri.replace "weather://" ""
    if city_slug = "search" then Except.ok searchResourceJson
    else
      let city := pyTitle (city_slug.replace "-" " ")
      match (get_weather_data env city "metric").1 with
      | some w => Except.ok (weatherJsonOf w)
      | none =>
        Except.ok (jsonObj [("error", jsonString ("Could not fetch weather data for " ++ city))])
  else Except.error ("Unknown resource: " ++ uri)

/-- A concrete weather payload used by the concrete environments below. -/
def payloadParis : WeatherPayload :=
  { temp := 15, feels_like := 14, description := "clear sky", humidity := 80,
    windSpeed := some 3, windDeg := some 180, cloudsAll := some 10,
    visibility := some 10000, pressure := some 1013,
    sunrise := some 1700000000, sunset := some 1700030000,
    name := "Paris", country := "FR", coordLat := 48, coordLon := 2 }

/-- A concrete geocoding hit. -/
def locParis : GeoLocation :=
  { lat := some 48, lon := some 2, name := "Paris",
    country := some "FR", state := none }

/-- The coordinates that `get_coordinates_for_city` builds from `locParis`. -/
def coordsParis : Coordinates :=
  { lat := 48, lon := 2, name := "Paris", country := "FR" }

/-- A concrete upstream forecast list: an off-hour sample, a noon sample,
a same-day 15:00 duplicate, and a next-day 15:00 sample. -/
def itemsA : List ForecastItem :=
  [ { dt_txt := "2026-10-12 09:00:00", temp := 12, description := "light rain",
      humidity := 70, windSpeed := some 4 },
    { dt_txt := "2026-10-12 12:00:00", temp := 16, description := "clear sky",
      humidity := 60, windSpeed := some 5 },
    { dt_txt := "2026-10-12 15:00:00", temp := 17, description := "few clouds",
      humidity := 55, windSpeed := none },
    { dt_txt := "2026-10-13 15:00:00", temp := 14, description := "overcast clouds",
      humidity := 65, windSpeed := some 2 } ]

/-- A base environment on which every weather query fails and geocoding
finds nothing. -/
def env404 : Env :=
  { weatherByCity := fun _ _ => { status := 404, body := none },
    weatherByCoord := fun _ _ _ => { status := 404, body := none },
    geocoding := fun _ _ => { status := 200, body := some [] },
    airPollution := fun _ _ => { status := 404, body := none },
    forecastByCoord := fun _ _ _ => { status := 404, body := none } }

/-- An environment on which everything about Paris succeeds. -/
def envA : Env :=
  { weatherByCity := fun city _ =>
      if city = "Paris" then { status := 200, body := some payloadParis }
      else { status := 404, body := none },
    weatherByCoord := fun _ _ _ => { status := 200, body := some payloadParis },
    geocoding := fun q _ =>
      if q = "Paris" then { status := 200, body := some [locParis] }
      else { status := 200, body := some [] },
    airPollution := fun _ _ => { status := 200, body := some 2 },
    forecastByCoord := fun _ _ _ => { status := 200, body := some itemsA } }

/-- An environment on which the direct weather query fails but the
geocoding fallback succeeds. -/
def envFB : Env :=
  { env404 with
    geocoding := fun _ _ => { status := 200, body := some [locParis] },
    weatherByCoord := fun _ _ _ => { status := 200, body := some payloadParis },
    airPollution := fun _ _ => { status := 200, body := some 3 } }

/-- An environment whose air-pollution endpoint reports the out-of-table
AQI value 7. -/
def envAQ : Env :=
  { env404 with airPollution := fun _ _ => { status := 200, body := some 7 } }

/-- Four geocoding hits, more than the requested limit of 3: an upstream
that ignores the `limit` parameter. -/
def locsOver : List GeoLocation :=
  [ { lat := some 10, lon := some 20, name := "Springfield",
      country := some "US", state := some "Illinois" },
    { lat := some 11, lon := some 21, name := "Springfield",
      country := some "US", state := some "Missouri" },
    { lat := some 12, lon := some 22, name := "Springfield",
      country := some "US", state := some "Massachusetts" },
    { lat := some 13, lon := some 23, name := "Springfield",
      country := some "US", state := none } ]

/-- An environment whose geocoder returns `locsOver` for every query. -/
def envOver : Env :=
  { env404 with geocoding := fun _ _ => { status := 200, body := some locsOver } }

/-- Tool arguments: `city` with imperial units. -/
def argsParisImp : Args :=
  { city := some "Paris", units := some "imperial", query := none, limit := none }

/-- Tool arguments: a city unknown to `envA`. -/
def argsAtlantis : Args :=
  { city := some "Atlantis", units := none, query := none, limit := none }

/-- Tool arguments with no `city` key. -/
def argsNoCity : Args := { city := none, units := none, query := none, limit := none }

/-- Tool arguments with an empty-string `city`. -/
def argsEmptyCity : Args := { city := some "", units := none, query := none, limit := none }

/-- Tool arguments with an empty-string `query`. -/
def argsEmptyQuery : Args := { city := none, units := none, query := some "", limit := none }

/-- Tool arguments: `query = "Spr"` with `limit = 3`. -/
def argsSpr3 : Args := { city := none, units := none, query := some "Spr", limit := some 3 }

/-- The forecast result that `envA` yields for Paris with metric units. -/
def resA : ForecastResult :=
  (get_forecast_data envA "Paris" "metric").1.getD { city := "", country := "", forecasts := [] }

/-- The call trace of that forecast query. -/
def callsA : List ApiCall := (get_forecast_data envA "Paris" "metric").2

/-- The forecast result that `envA` yields for Paris with imperial units. -/
def resAImp : ForecastResult :=
  (get_forecast_data envA "Paris" "imperial").1.getD { city := "", country := "", forecasts := [] }

/-- The call trace of that imperial forecast query. -/
def callsAImp : List ApiCall := (get_forecast_data envA "Paris" "imperial").2

/-- The weather report that `envA` yields for Paris with imperial units. -/
def repAImp : WeatherReport :=
  (get_weather_data envA "Paris" "imperial").1.getD
    (buildWeatherReport "metric" payloadParis "" "" 0 0 none)

/-- The call trace of that weather query. -/
def wcallsAImp : List ApiCall := (get_weather_data envA "Paris" "imperial").2

/-- The accepted samples are a sublist of the upstream list: the selection
loop preserves upstream order. -/
theorem pickRaw_sublist (items : List ForecastItem) :
    ∀ (seen : List String) (k : Nat), List.Sublist (pickRaw items seen k) items := by
  induction items with
  | nil => intro seen k; simp [pickRaw]
  | cons it rest ih =>
    intro seen k
    simp only [pickRaw]
    by_cases hc : itemDate it ∉ seen ∧ (itemHour it = "12" ∨ itemHour it = "15")
    · rw [if_pos hc]
      by_cases h5 : 5 ≤ k + 1
      · rw [if_pos h5]
        exact List.Sublist.cons₂ it (List.nil_sublist rest)
      · rw [if_neg h5]
        exact List.Sublist.cons₂ it (ih _ _)
    · rw [if_neg hc]
      exact List.Sublist.cons it (ih _ _)

/-- Every accepted sample has local hour 12 or 15. -/
theorem pickRaw_all_hourOK (items : List ForecastItem) :
    ∀ (seen : List String) (k : Nat), (pickRaw items seen k).all hourOK = true := by
  induction items with
  | nil => intro seen k; simp [pickRaw]
  | cons it rest ih =>
    intro seen k
    simp only [pickRaw]
    by_cases hc : itemDate it ∉ seen ∧ (itemHour it = "12" ∨ itemHour it = "15")
    · rw [if_pos hc]
      have hh : hourOK it = true := by
        have := hc.2
        simp [hourOK]
        tauto
      by_cases h5 : 5 ≤ k + 1
      · rw [if_pos h5]; simp [hh]
      · rw [if_neg h5]; simp [hh, ih]
    · rw [if_neg hc]; exact ih _ _

/-- The accepted samples avoid the already-seen dates and have pairwise
distinct calendar dates. -/
theorem pickRaw_dates (items : List ForecastItem) :
    ∀ (seen : List String) (k : Nat),
      (∀ it ∈ pickRaw items seen k, itemDate it ∉ seen) ∧
      ((pickRaw items seen k).map itemDate).Nodup := by
  induction items with
  | nil => intro seen k; simp [pickRaw]
  | cons it rest ih =>
    intro seen k
    simp only [pickRaw]
    by_cases hc : itemDate it ∉ seen ∧ (itemHour it = "12" ∨ itemHour it = "15")
    · rw [if_pos hc]
      by_cases h5 : 5 ≤ k + 1
      · rw [if_pos h5]
        constructor
        · intro x hx
          rw [List.mem_singleton] at hx
          subst hx
          exact hc.1
        · simp
      · rw [if_neg h5]
        obtain ⟨hseen, hnodup⟩ := ih (seen ++ [itemDate it]) (k + 1)
        constructor
        · intro x hx
          rcases List.mem_cons.mp hx with hx | hx
          · subst hx; exact hc.1
          · intro hmem
            exact hseen x hx (List.mem_append_left _ hmem)
        · rw [List.map_cons, List.nodup_cons]
          refine ⟨?_, hnodup⟩
          intro hmem
          rw [List.mem_map] at hmem
          obtain ⟨x, hx, hdx⟩ := hmem
          exact hseen x hx (by rw [hdx]; simp)
    · rw [if_neg hc]
      exact ih seen k

/-- Starting from `k` already-accepted entries with `k < 5`, the loop
accepts at most `5 - k` further samples. -/
theorem pickRaw_length (items : List ForecastItem) :
    ∀ (seen : List String) (k : Nat), k < 5 →
      k + (pickRaw items seen k).length ≤ 5 := by
  induction items with
  | nil => intro seen k hk; simp [pickRaw]; omega
  | cons it rest ih =>
    intro seen k hk
    simp only [pickRaw]
    by_cases hc : itemDate it ∉ seen ∧ (itemHour it = "12" ∨ itemHour it = "15")
    · rw [if_pos hc]
      by_cases h5 : 5 ≤ k + 1
      · rw [if_pos h5]; simp; omega
      · rw [if_neg h5]
        have := ih (seen ++ [itemDate it]) (k + 1) (by omega)
        simp only [List.length_cons]
        omega
    · rw [if_neg hc]
      exact ih seen k hk

/-- The entries the selection loop returns are exactly the entries built
from the accepted raw samples, in order. -/
theorem selectGo_eq_pickRaw (u : String) (items : List ForecastItem) :
    ∀ (seen : List String) (acc es : List ForecastEntry),
      selectGo u items seen acc = some es →
      es = acc ++ (pickRaw items seen acc.length).map (mkForecastEntry u) := by
  induction items with
  | nil =>
    intro seen acc es h
    simp only [selectGo, Option.some.injEq] at h
    simp [pickRaw, ← h]
  | cons it rest ih =>
    intro seen acc es h
    simp only [selectGo] at h
    simp only [pickRaw]
    by_cases hc : itemDate it ∉ seen ∧ (itemHour it = "12" ∨ itemHour it = "15")
    · rw [if_pos hc] at h
      rw [if_pos hc]
      split at h
      · exact absurd h (by simp)
      · rename_i fd hfd
        have hmk : mkEntryWith u it fd = mkForecastEntry u it := by
          simp [mkForecastEntry, hfd]
        by_cases h5 : 5 ≤ (acc ++ [mkEntryWith u it fd]).length
        · rw [if_pos h5] at h
          have h5' : 5 ≤ acc.length + 1 := by
            simpa using h5
          rw [if_pos h5']
          simp only [Option.some.injEq] at h
          rw [← h, hmk]
          simp
        · rw [if_neg h5] at h
          have h5' : ¬ 5 ≤ acc.length + 1 := by
            intro hcon
            exact h5 (by simpa using hcon)
          rw [if_neg h5']
          have := ih (seen ++ [itemDate it]) (acc ++ [mkEntryWith u it fd]) es h
          rw [this, hmk]
          simp
    · rw [if_neg hc] at h
      rw [if_neg hc]
      exact ih seen acc es h

/-- The geocoding helper always issues exactly its one `limit=1` call. -/
theorem get_coordinates_calls (env : Env) (city : String) :
    (get_coordinates_for_city env city).2 = [ApiCall.geocoding city 1] := by
  simp only [get_coordinates_for_city]
  repeat' split
  all_goals rfl

/-- Inversion of a successful forecast query: the geocoding step, the
forecast request and the selection loop all succeeded, and the result
fields come from them. -/
theorem get_forecast_data_inv (env : Env) (city units : String)
    (res : ForecastResult) (calls : List ApiCall)
    (h : get_forecast_data env city units = (some res, calls)) :
    ∃ (coords : Coordinates) (gcalls : List ApiCall) (items : List ForecastItem),
      get_coordinates_for_city env city = (some coords, gcalls) ∧
      (env.forecastByCoord coords.lat coords.lon units).status = 200 ∧
      (env.forecastByCoord coords.lat coords.lon units).body = some items ∧
      selectForecasts (if units = "imperial" then "°F" else "°C") items = some res.forecasts ∧
      res.city = coords.name ∧ res.country = coords.country ∧
      calls = gcalls ++ [ApiCall.forecast coords.lat coords.lon units] := by
  rcases hg : get_coordinates_for_city env city with ⟨copt, gcalls⟩
  rw [get_forecast_data, hg] at h
  cases copt with
  | none => simp at h
  | some coords =>
    simp only at h
    by_cases hst : (env.forecastByCoord coords.lat coords.lon units).status = 200
    · rw [if_pos hst] at h
      cases hb : (env.forecastByCoord coords.lat coords.lon units).body with
      | none => rw [hb] at h; simp at h
      | some items =>
        rw [hb] at h
        simp only at h
        cases hsel : selectForecasts (if units = "imperial" then "°F" else "°C") items with
        | none => rw [hsel] at h; simp at h
        | some entries =>
          rw [hsel] at h
          simp only [Prod.mk.injEq, Option.some.injEq] at h
          obtain ⟨hres, hcalls⟩ := h
          refine ⟨coords, gcalls, items, rfl, hst, hb, ?_, ?_, ?_, hcalls.symm⟩
          · rw [← hres]; exact hsel
          · rw [← hres]
          · rw [← hres]
    · rw [if_neg hst] at h
      simp at h

/-- Unfolding of `get_weather_data` when the direct name-based query
succeeds. -/
theorem get_weather_data_direct (env : Env) (city units : String)
    (data : WeatherPayload)
    (hst : (env.weatherByCity city units).status = 200)
    (hb : (env.weatherByCity city units).body = some data) :
    get_weather_data env city units =
      (some (buildWeatherReport units data data.name data.country data.coordLat data.coordLon
        (get_air_quality_data env data.coordLat data.coordLon).1),
       ApiCall.weatherByCity city units ::
         (get_air_quality_data env data.coordLat data.coordLon).2) := by
  simp [get_weather_data, hst, hb]

/-- Unfolding of `get_weather_data` when the direct query fails and the
geocoding fallback finds nothing. -/
theorem get_weather_data_nogeo (env : Env) (city units : String)
    (gcalls : List ApiCall)
    (hst : (env.weatherByCity city units).status ≠ 200)
    (hg : get_coordinates_for_city env city = (none, gcalls)) :
    get_weather_data env city units = (none, ApiCall.weatherByCity city units :: gcalls) := by
  simp [get_weather_data, hst, hg]

/-- Unfolding of `get_weather_data` when the direct query fails, geocoding
succeeds and the coordinate-based query succeeds. -/
theorem get_weather_data_fallback (env : Env) (city units : String)
    (coords : Coordinates) (gcalls : List ApiCall) (data : WeatherPayload)
    (hst : (env.weatherByCity city units).status ≠ 200)
    (hg : get_coordinates_for_city env city = (some coords, gcalls))
    (hst2 : (env.weatherByCoord coords.lat coords.lon units).status = 200)
    (hb2 : (env.weatherByCoord coords.lat coords.lon units).body = some data) :
    get_weather_data env city units =
      (some (buildWeatherReport units data coords.name coords.country coords.lat coords.lon
        (get_air_quality_data env coords.lat coords.lon).1),
       ApiCall.weatherByCity city units :: gcalls ++
         [ApiCall.weatherByCoord coords.lat coords.lon units] ++
         (get_air_quality_data env coords.lat coords.lon).2) := by
  simp [get_weather_data, hst, hg, hst2, hb2]

/-- Unfolding of `get_weather_data` when the direct query fails, geocoding
succeeds but the coordinate-based query also fails. -/
theorem get_weather_data_fallback_fail (env : Env) (city units : String)
    (coords : Coordinates) (gcalls : List ApiCall)
    (hst : (env.weatherByCity city units).status ≠ 200)
    (hg : get_coordinates_for_city env city = (some coords, gcalls))
    (hst2 : (env.weatherByCoord coords.lat coords.lon units).status ≠ 200) :
    get_weather_data env city units =
      (none, ApiCall.weatherByCity city units :: gcalls ++
        [ApiCall.weatherByCoord coords.lat coords.lon units]) := by
  simp [get_weather_data, hst, hg, hst2]

/-- Unfolding of `get_weather_data` when the coordinate-based fallback
query returns status 200 with an unusable body. -/
theorem get_weather_data_fallback_nobody (env : Env) (city units : String)
    (coords : Coordinates) (gcalls : List ApiCall)
    (hst : (env.weatherByCity city units).status ≠ 200)
    (hg : get_coordinates_for_city env city = (some coords, gcalls))
    (hst2 : (env.weatherByCoord coords.lat coords.lon units).status = 200)
    (hb2 : (env.weatherByCoord coords.lat coords.lon units).body = none) :
    get_weather_data env city units =
      (none, ApiCall.weatherByCity city units :: gcalls ++
        [ApiCall.weatherByCoord coords.lat coords.lon units]) := by
  simp [get_weather_data, hst, hg, hst2, hb2]

/-- The entry list of a successful forecast equals the entries built from
the raw samples that the selection loop accepts. -/
theorem forecast_entries_eq (env : Env) (city units : String)
    (res : ForecastResult) (calls : List ApiCall) (coords : Coordinates)
    (gcalls : List ApiCall) (items : List ForecastItem)
    (h : get_forecast_data env city units = (some res, calls))
    (hg : get_coordinates_for_city env city = (some coords, gcalls))
    (hb : (env.forecastByCoord coords.lat coords.lon units).body = some items) :
    res.forecasts =
      (pickRaw items [] 0).map (mkForecastEntry (if units = "imperial" then "°F" else "°C")) := by
  obtain ⟨coords', gcalls', items', hg', hst', hb', hsel, _, _, _⟩ :=
    get_forecast_data_inv env city units res calls h
  rw [hg] at hg'
  obtain ⟨hc1, hc2⟩ := Prod.mk.injEq _ _ _ _ ▸ hg'
  cases Option.some.injEq _ _ ▸ hc1
  rw [hb] at hb'
  cases Option.some.injEq _ _ ▸ hb'
  have hsel' := selectGo_eq_pickRaw _ items _ _ _ hsel
  simpa using hsel'

/-- C2: for every city and unit system, and every upstream forecast
response, a successful `get_forecast_data` result consists of the entries
built from the samples that the selection loop accepts (`pickRaw`): at most
5 entries, pairwise-distinct calendar dates, every accepted sample has
local hour 12 or 15, and the accepted samples are a sublist of the upstream
list (iteration in upstream order, stopping at 5). -/
theorem C2_forecast_selection (env : Env) (city units : String)
    (res : ForecastResult) (calls : List ApiCall) (coords : Coordinates)
    (gcalls : List ApiCall) (items : List ForecastItem)
    (h : get_forecast_data env city units = (some res, calls))
    (hg : get_coordinates_for_city env city = (some coords, gcalls))
    (hb : (env.forecastByCoord coords.lat coords.lon units).body = some items) :
    res.forecasts =
      (pickRaw items [] 0).map (mkForecastEntry (if units = "imperial" then "°F" else "°C")) ∧
    res.forecasts.length ≤ 5 ∧
    ((pickRaw items [] 0).map itemDate).Nodup ∧
    (pickRaw items [] 0).all hourOK = true ∧
    List.Sublist (pickRaw items [] 0) items := by
  have hf := forecast_entries_eq env city units res calls coords gcalls items h hg hb
  refine ⟨hf, ?_, (pickRaw_dates items [] 0).2, pickRaw_all_hourOK items [] 0,
    pickRaw_sublist items [] 0⟩
  rw [hf]
  have := pickRaw_length items [] 0 (by omega)
  simp only [List.length_map]
  omega

/-- C2 witness at a concrete environment. -/
theorem C2_witness :
    resA.forecasts =
      (pickRaw itemsA [] 0).map (mkForecastEntry (if "metric" = "imperial" then "°F" else "°C")) ∧
    resA.forecasts.length ≤ 5 ∧
    ((pickRaw itemsA [] 0).map itemDate).Nodup ∧
    (pickRaw itemsA [] 0).all hourOK = true ∧
    List.Sublist (pickRaw itemsA [] 0) itemsA :=
  C2_forecast_selection envA "Paris" "metric" resA callsA coordsParis
    [ApiCall.geocoding "Paris" 1] itemsA (by rfl) (by rfl) (by rfl)

/-- Unfolding of the `get_forecast` branch of `handle_call_tool` when the
assembler succeeds. -/
theorem handle_call_tool_forecast_some (env : Env) (args : Args)
    (city units : String) (fd : ForecastResult) (calls : List ApiCall)
    (hc : args.city = some city) (hne : city ≠ "")
    (hu : args.units.getD "metric" = units)
    (h : get_forecast_data env city units = (some fd, calls)) :
    handle_call_tool env "get_forecast" args = ([mkText (renderForecastText fd)], calls) := by
  have htr : truthy (some city) = true := by simp [truthy, hne]
  simp [handle_call_tool, hc, htr, hu, h]

/-- Unfolding of the `get_forecast` branch of `handle_call_tool` when the
assembler fails. -/
theorem handle_call_tool_forecast_none (env : Env) (args : Args)
    (city units : String) (calls : List ApiCall)
    (hc : args.city = some city) (hne : city ≠ "")
    (hu : args.units.getD "metric" = units)
    (h : get_forecast_data env city units = (none, calls)) :
    handle_call_tool env "get_forecast" args =
      ([mkText ("❌ Could not find forecast data for \x27" ++ city ++
        "\x27. Please check the city name and try again.")], calls) := by
  have htr : truthy (some city) = true := by simp [truthy, hne]
  simp [handle_call_tool, hc, htr, hu, h]

/-- The wind speed placed in a current-weather payload processing, before
conversion (`data.get('wind', {}).get('speed', 0)`). -/
def rawWindP (data : WeatherPayload) : ℚ := data.windSpeed.getD 0

/-- C9: for every forecast entry and every requested unit system (imperial
included), the entry's wind speed is the raw upstream sample's wind value,
unconverted, and the `get_forecast` tool renders every entry with the
literal trailing label `m/s`, independently of the unit system. -/
theorem C9_forecast_wind_label (env : Env) (args : Args) (city units : String)
    (res : ForecastResult) (calls : List ApiCall) (coords : Coordinates)
    (gcalls : List ApiCall) (items : List ForecastItem)
    (hc : args.city = some city) (hne : city ≠ "")
    (hu : args.units.getD "metric" = units)
    (h : get_forecast_data env city units = (some res, calls))
    (hg : get_coordinates_for_city env city = (some coords, gcalls))
    (hb : (env.forecastByCoord coords.lat coords.lon units).body = some items) :
    res.forecasts.map ForecastEntry.wind_speed = (pickRaw items [] 0).map rawWind ∧
    handle_call_tool env "get_forecast" args = ([mkText (renderForecastText res)], calls) ∧
    res.forecasts.map renderForecastEntryText =
      (res.forecasts.map forecastEntryPre).map appendMsWind := by
  have hf := forecast_entries_eq env city units res calls coords gcalls items h hg hb
  refine ⟨?_, handle_call_tool_forecast_some env args city units res calls hc hne hu h, ?_⟩
  · rw [hf, List.map_map]
    rfl
  · rw [List.map_map]
    rfl

/-- C9 witness at a concrete environment with imperial units requested. -/
theorem C9_witness :
    resAImp.forecasts.map ForecastEntry.wind_speed = (pickRaw itemsA [] 0).map rawWind ∧
    handle_call_tool envA "get_forecast" argsParisImp =
      ([mkText (renderForecastText resAImp)], callsAImp) ∧
    resAImp.forecasts.map renderForecastEntryText =
      (resAImp.forecasts.map forecastEntryPre).map appendMsWind :=
  C9_forecast_wind_label envA argsParisImp "Paris" "imperial" resAImp callsAImp
    coordsParis [ApiCall.geocoding "Paris" 1] itemsA rfl (by decide) rfl (by rfl) (by rfl) (by rfl)

/-- C7: for every city on which the geocoding lookup fails,
`get_forecast_data` returns `None` having issued only the single geocoding
call — in particular no forecast-endpoint call — and the `get_forecast`
tool renders the could-not-find-forecast message. -/
theorem C7_forecast_geocode_failure (env : Env) (args : Args)
    (city units : String) (gcalls : List ApiCall)
    (hc : args.city = some city) (hne : city ≠ "")
    (hu : args.units.getD "metric" = units)
    (hg : get_coordinates_for_city env city = (none, gcalls)) :
    get_forecast_data env city units = (none, gcalls) ∧
    gcalls = [ApiCall.geocoding city 1] ∧
    gcalls.all notForecastCall = true ∧
    (handle_call_tool env "get_forecast" args).1 =
      [mkText ("❌ Could not find forecast data for \x27" ++ city ++
        "\x27. Please check the city name and try again.")] := by
  have h1 : get_forecast_data env city units = (none, gcalls) := by
    simp [get_forecast_data, hg]
  have h2 : gcalls = [ApiCall.geocoding city 1] := by
    have := get_coordinates_calls env city
    rw [hg] at this
    exact this
  refine ⟨h1, h2, ?_, ?_⟩
  · rw [h2]
    simp [notForecastCall]
  · rw [handle_call_tool_forecast_none env args city units gcalls hc hne hu h1]

/-- C7 witness at a concrete environment whose geocoder finds nothing. -/
theorem C7_witness :
    get_forecast_data env404 "Atlantis" "metric" = (none, [ApiCall.geocoding "Atlantis" 1]) ∧
    [ApiCall.geocoding "Atlantis" 1] = [ApiCall.geocoding "Atlantis" 1] ∧
    [ApiCall.geocoding "Atlantis" 1].all notForecastCall = true ∧
    (handle_call_tool env404 "get_forecast" argsAtlantis).1 =
      [mkText ("❌ Could not find forecast data for \x27" ++ "Atlantis" ++
        "\x27. Please check the city name and try again.")] :=
  C7_forecast_geocode_failure env404 argsAtlantis "Atlantis" "metric"
    [ApiCall.geocoding "Atlantis" 1] rfl (by decide) rfl (by rfl)

/-- C8: a `get_weather` invocation whose arguments have no `city` key is
rejected with the short error text and issues no upstream call. -/
theorem C8_missing_city (env : Env) (args : Args) (hc : args.city = none) :
    handle_call_tool env "get_weather" args =
      ([mkText "Error: City name is required"], []) := by
  simp [handle_call_tool, hc, truthy]

/-- C8 witness at a concrete environment. -/
theorem C8_witness :
    handle_call_tool env404 "get_weather" argsNoCity =
      ([mkText "Error: City name is required"], []) :=
  C8_missing_city env404 argsNoCity rfl

/-- C10: a required string argument that is present but empty is handled
exactly like a missing one, for all three tools: same error text, no
upstream call, and the same response as with the key absent. -/
theorem C10_empty_string_args (env : Env) (args1 args2 args3 : Args)
    (h1 : args1.city = some "") (h2 : args2.city = some "")
    (h3 : args3.query = some "") :
    handle_call_tool env "get_weather" args1 =
      ([mkText "Error: City name is required"], []) ∧
    handle_call_tool env "get_weather" args1 =
      handle_call_tool env "get_weather" { args1 with city := none } ∧
    handle_call_tool env "get_forecast" args2 =
      ([mkText "Error: City name is required"], []) ∧
    handle_call_tool env "get_forecast" args2 =
      handle_call_tool env "get_forecast" { args2 with city := none } ∧
    handle_call_tool env "search_cities" args3 =
      ([mkText "Error: Search query is required"], []) ∧
    handle_call_tool env "search_cities" args3 =
      handle_call_tool env "search_cities" { args3 with query := none } := by
  refine ⟨?_, ?_, ?_, ?_, ?_, ?_⟩ <;>
    simp [handle_call_tool, h1, h2, h3, truthy]

/-- C10 witness at a concrete environment. -/
theorem C10_witness :
    handle_call_tool env404 "get_weather" argsEmptyCity =
      ([mkText "Error: City name is required"], []) ∧
    handle_call_tool env404 "get_weather" argsEmptyCity =
      handle_call_tool env404 "get_weather" { argsEmptyCity with city := none } ∧
    handle_call_tool env404 "get_forecast" argsEmptyCity =
      ([mkText "Error: City name is required"], []) ∧
    handle_call_tool env404 "get_forecast" argsEmptyCity =
      handle_call_tool env404 "get_forecast" { argsEmptyCity with city := none } ∧
    handle_call_tool env404 "search_cities" argsEmptyQuery =
      ([mkText "Error: Search query is required"], []) ∧
    handle_call_tool env404 "search_cities" argsEmptyQuery =
      handle_call_tool env404 "search_cities" { argsEmptyQuery with query := none } :=
  C10_empty_string_args env404 argsEmptyCity argsEmptyCity argsEmptyQuery rfl rfl rfl

/-- C5: for every integer AQI value the upstream reports, the air-quality
lookup succeeds and maps 1..5 through the fixed label/marker tables and
every other integer to `Unknown` with the neutral marker. -/
theorem C5_air_quality_mapping (env : Env) (lat lon : ℚ) (aqi : ℤ)
    (h : env.airPollution lat lon = { status := 200, body := some aqi }) :
    (get_air_quality_data env lat lon).1 =
      some { aqi := aqi, aqi_label := aqiLabel aqi, aqi_color := aqiColor aqi } ∧
    aqiLabel 1 = "Good" ∧ aqiLabel 2 = "Fair" ∧ aqiLabel 3 = "Moderate" ∧
    aqiLabel 4 = "Poor" ∧ aqiLabel 5 = "Very Poor" ∧
    (aqi = 1 ∨ aqi = 2 ∨ aqi = 3 ∨ aqi = 4 ∨ aqi = 5 ∨
      (aqiLabel aqi = "Unknown" ∧ aqiColor aqi = "⚪")) := by
  refine ⟨by simp [get_air_quality_data, h], by decide, by decide, by decide,
    by decide, by decide, ?_⟩
  by_cases h1 : aqi = 1
  · exact Or.inl h1
  by_cases h2 : aqi = 2
  · exact Or.inr (Or.inl h2)
  by_cases h3 : aqi = 3
  · exact Or.inr (Or.inr (Or.inl h3))
  by_cases h4 : aqi = 4
  · exact Or.inr (Or.inr (Or.inr (Or.inl h4)))
  by_cases h5 : aqi = 5
  · exact Or.inr (Or.inr (Or.inr (Or.inr (Or.inl h5))))
  exact Or.inr (Or.inr (Or.inr (Or.inr (Or.inr
    ⟨by simp [aqiLabel, h1, h2, h3, h4, h5], by simp [aqiColor, h1, h2, h3, h4, h5]⟩))))

/-- C5 witness at a concrete environment reporting the out-of-table AQI 7. -/
theorem C5_witness :
    (get_air_quality_data envAQ 0 0).1 =
      some { aqi := 7, aqi_label := aqiLabel 7, aqi_color := aqiColor 7 } ∧
    aqiLabel 1 = "Good" ∧ aqiLabel 2 = "Fair" ∧ aqiLabel 3 = "Moderate" ∧
    aqiLabel 4 = "Poor" ∧ aqiLabel 5 = "Very Poor" ∧
    ((7 : ℤ) = 1 ∨ (7 : ℤ) = 2 ∨ (7 : ℤ) = 3 ∨ (7 : ℤ) = 4 ∨ (7 : ℤ) = 5 ∨
      (aqiLabel 7 = "Unknown" ∧ aqiColor 7 = "⚪")) :=
  C5_air_quality_mapping envAQ 0 0 7 rfl

/-- C6: every tool name outside the three declared ones yields a plain
unknown-tool text response (never a fault, and no upstream call), while
every resource identifier that does not start with the `weather://` prefix
makes the resource-read handler raise — the raised fault being the `error`
branch of its result. -/
theorem C6_unknown_tool_vs_resource (env : Env) (name uri : String) (args : Args)
    (hname : name ≠ "get_weather" ∧ name ≠ "get_forecast" ∧ name ≠ "search_cities")
    (huri : pyStartsWith uri "weather://" = false) :
    handle_call_tool env name args = ([mkText ("❌ Unknown tool: " ++ name)], []) ∧
    handle_read_resource env uri = Except.error ("Unknown resource: " ++ uri) := by
  constructor
  · simp [handle_call_tool, hname.1, hname.2.1, hname.2.2]
  · simp [handle_read_resource, huri]

/-- C6 witness at concrete inputs. -/
theorem C6_witness :
    handle_call_tool env404 "frobnicate" argsNoCity =
      ([mkText ("❌ Unknown tool: " ++ "frobnicate")], []) ∧
    handle_read_resource env404 "bogus://x" =
      Except.error ("Unknown resource: " ++ "bogus://x") :=
  C6_unknown_tool_vs_resource env404 "frobnicate" "bogus://x" argsNoCity
    (by decide) (by rfl)

/-- C3: for a requested unit system in `{metric, imperial}`, a successful
current-weather report carries the `°F`/`mph` tags exactly when imperial
was requested (`°C`/`m/s` otherwise, never mixed), and its wind speed is
the upstream-reported value times 2.237 for imperial, unchanged for
metric.  The payload `data` is pinned to whichever weather query (direct or
coordinate fallback) produced the report. -/
theorem C3_units_and_wind (env : Env) (city units : String)
    (res : WeatherReport) (calls : List ApiCall) (data : WeatherPayload)
    (coords : Coordinates)
    (hu : units = "metric" ∨ units = "imperial")
    (h : get_weather_data env city units = (some res, calls))
    (hdata :
      ((env.weatherByCity city units).status = 200 ∧
        (env.weatherByCity city units).body = some data) ∨
      ((env.weatherByCity city units).status ≠ 200 ∧
        (get_coordinates_for_city env city).1 = some coords ∧
        (env.weatherByCoord coords.lat coords.lon units).body = some data)) :
    ((res.temp_unit = "°F") ↔ units = "imperial") ∧
    ((res.wind_unit = "mph") ↔ units = "imperial") ∧
    ((res.temp_unit = "°C") ↔ units = "metric") ∧
    ((res.wind_unit = "m/s") ↔ units = "metric") ∧
    res.wind_speed =
      (if units = "imperial" then rawWindP data * (2237 / 1000 : ℚ) else rawWindP data) := by
  have hres : res = buildWeatherReport units data res.city res.country res.lat res.lon res.air ∨
      ∃ cn co la lo air, res = buildWeatherReport units data cn co la lo air := by
    rcases hdata with ⟨hst, hb⟩ | ⟨hst, hg1, hb2⟩
    · rw [get_weather_data_direct env city units data hst hb] at h
      simp only [Prod.mk.injEq, Option.some.injEq] at h
      exact Or.inr ⟨_, _, _, _, _, h.1.symm⟩
    · rcases hp : get_coordinates_for_city env city with ⟨c1, c2⟩
      rw [hp] at hg1
      simp only at hg1
      subst hg1
      by_cases hst2 : (env.weatherByCoord coords.lat coords.lon units).status = 200
      · rw [get_weather_data_fallback env city units coords c2 data hst hp hst2 hb2] at h
        simp only [Prod.mk.injEq, Option.some.injEq] at h
        exact Or.inr ⟨_, _, _, _, _, h.1.symm⟩
      · rw [get_weather_data_fallback_fail env city units coords c2 hst hp hst2] at h
        simp at h
  have key : ∀ cn co la lo air,
      res = buildWeatherReport units data cn co la lo air →
      ((res.temp_unit = "°F") ↔ units = "imperial") ∧
      ((res.wind_unit = "mph") ↔ units = "imperial") ∧
      ((res.temp_unit = "°C") ↔ units = "metric") ∧
      ((res.wind_unit = "m/s") ↔ units = "metric") ∧
      res.wind_speed =
        (if units = "imperial" then rawWindP data * (2237 / 1000 : ℚ) else rawWindP data) := by
    intro cn co la lo air hr
    rcases hu with hmet | himp
    · subst hmet
      rw [hr]
      simp [buildWeatherReport, rawWindP]
    · subst himp
      rw [hr]
      simp [buildWeatherReport, rawWindP]
  rcases hres with hr | ⟨cn, co, la, lo, air, hr⟩
  · exact key _ _ _ _ _ hr
  · exact key _ _ _ _ _ hr

/-- C3 witness: imperial units at a concrete environment. -/
theorem C3_witness :
    ((repAImp.temp_unit = "°F") ↔ ("imperial" : String) = "imperial") ∧
    ((repAImp.wind_unit = "mph") ↔ ("imperial" : String) = "imperial") ∧
    ((repAImp.temp_unit = "°C") ↔ ("imperial" : String) = "metric") ∧
    ((repAImp.wind_unit = "m/s") ↔ ("imperial" : String) = "metric") ∧
    repAImp.wind_speed =
      (if ("imperial" : String) = "imperial" then rawWindP payloadParis * (2237 / 1000 : ℚ)
       else rawWindP payloadParis) :=
  C3_units_and_wind envA "Paris" "imperial" repAImp wcallsAImp payloadParis coordsParis
    (Or.inr rfl) (by rfl) (Or.inl ⟨rfl, rfl⟩)

/-- C4: when the direct name-based weather query returns a non-200
status, `get_weather_data` falls back through the geocoding lookup: if the
lookup is absent the overall result is absent (with only the direct and
geocoding calls issued), and if it resolves, the weather query is repeated
at exactly the resolved coordinates. -/
theorem C4_weather_fallback (envN envF : Env) (city units : String)
    (coords : Coordinates) (gcallsN gcallsF : List ApiCall)
    (hfailN : (envN.weatherByCity city units).status ≠ 200)
    (hfailF : (envF.weatherByCity city units).status ≠ 200)
    (hgN : get_coordinates_for_city envN city = (none, gcallsN))
    (hgF : get_coordinates_for_city envF city = (some coords, gcallsF)) :
    get_weather_data envN city units = (none, ApiCall.weatherByCity city units :: gcallsN) ∧
    ApiCall.weatherByCoord coords.lat coords.lon units ∈ (get_weather_data envF city units).2 := by
  refine ⟨get_weather_data_nogeo envN city units gcallsN hfailN hgN, ?_⟩
  by_cases hst2 : (envF.weatherByCoord coords.lat coords.lon units).status = 200
  · cases hb2 : (envF.weatherByCoord coords.lat coords.lon units).body with
    | none =>
      rw [get_weather_data_fallback_nobody envF city units coords gcallsF hfailF hgF hst2 hb2]
      simp
    | some data =>
      rw [get_weather_data_fallback envF city units coords gcallsF data hfailF hgF hst2 hb2]
      simp
  · rw [get_weather_data_fallback_fail envF city units coords gcallsF hfailF hgF hst2]
    simp

/-- C4 witness: one environment with failing geocoding, one with a
successful fallback. -/
theorem C4_witness :
    get_weather_data env404 "Atlantis" "metric" =
      (none, ApiCall.weatherByCity "Atlantis" "metric" :: [ApiCall.geocoding "Atlantis" 1]) ∧
    ApiCall.weatherByCoord coordsParis.lat coordsParis.lon "metric" ∈
      (get_weather_data envFB "Atlantis" "metric").2 :=
  C4_weather_fallback env404 envFB "Atlantis" "metric" coordsParis
    [ApiCall.geocoding "Atlantis" 1] [ApiCall.geocoding "Atlantis" 1]
    (by decide) (by decide) (by rfl) (by rfl)

/-- C1 (amended): a `search_cities` call with `limit = 3` forwards the
limit to the single upstream geocoding request, and the rendered result
lists exactly one entry per element of the upstream response array — so it
has at most 3 entries only when the upstream itself returns at most 3
matches; the handler performs no truncation of its own. -/
theorem C1_search_limit_delegated (env : Env) (args : Args) (q : String)
    (data : List GeoLocation)
    (hq : args.query = some q) (hne : q ≠ "") (hl : args.limit = some 3)
    (hresp : env.geocoding q 3 = { status := 200, body := some data })
    (hdata : data ≠ []) :
    handle_call_tool env "search_cities" args =
      ([mkText (searchCitiesText q data)], [ApiCall.geocoding q 3]) ∧
    (searchCityEntries data).length = data.length := by
  have htr : truthy (some q) = true := by simp [truthy, hne]
  constructor
  · simp [handle_call_tool, hq, htr, hl, hresp, hdata]
  · simp [searchCityEntries]

/-- C1 counterexample: with `limit = 3` but an upstream response of 4
matches, the rendered result lists 4 city entries, not at most 3. -/
theorem C1_counterexample :
    (handle_call_tool envOver "search_cities" argsSpr3).1 =
      [mkText (searchCitiesText "Spr" locsOver)] ∧
    locsOver.length = 4 ∧
    ¬ ((searchCityEntries locsOver).length ≤ 3) :=
  ⟨by rfl, by rfl, by decide⟩

/-- C1 witness for the amended statement, at the same concrete input. -/
theorem C1_witness :
    handle_call_tool envOver "search_cities" argsSpr3 =
      ([mkText (searchCitiesText "Spr" locsOver)], [ApiCall.geocoding "Spr" 3]) ∧
    (searchCityEntries locsOver).length = locsOver.length :=
  C1_search_limit_delegated envOver argsSpr3 "Spr" locsOver rfl (by decide) rfl
    (by rfl) (by decide)
